import Mathlib

/-!
Shallow embedding of the power-usage gateway (src/main.rs).

Conventions of the embedding:
* Rust f64 sample values are modelled as exact rationals; the claims under
  verification only involve values and operations that are exact in both
  semantics (small integers, subtraction, division by constants, rounding).
* The dynamic serde_json value type is modelled by the inductive `Json`;
  indexing a non-object / out-of-bounds position yields `Json.null`, as in
  serde_json.
* Network effects are modelled by `FetchOutcome`, the possible outcomes of
  the reqwest call in `get_data` (lines 149-175 of main.rs).
* chrono fixed offsets, naive timestamps and UTC instants are modelled as
  integer second counts; a fixed offset always resolves a local time
  uniquely, which `fixedOffsetSingle` records.
-/

namespace PowerGateway

/-- HTTP status codes used by the handler: 400, 500 and 502. -/
inductive StatusCode where
  | badRequest
  | internalServerError
  | badGateway
deriving DecidableEq, Repr

/-- Decidable equality for `Except`, so that concrete handler outcomes can
be checked by `decide`. -/
instance {ε α : Type} [DecidableEq ε] [DecidableEq α] :
    DecidableEq (Except ε α) := fun a b =>
  match a, b with
  | .error e1, .error e2 =>
    if h : e1 = e2 then isTrue (by rw [h]) else
      isFalse (by intro hc; cases hc; exact h rfl)
  | .ok v1, .ok v2 =>
    if h : v1 = v2 then isTrue (by rw [h]) else
      isFalse (by intro hc; cases hc; exact h rfl)
  | .error _, .ok _ => isFalse (by intro hc; cases hc)
  | .ok _, .error _ => isFalse (by intro hc; cases hc)

/-- Splits a character list at every occurrence of the separator, keeping
empty chunks, as Rust `str::split` with a single char pattern does. -/
def splitOnChar (c : Char) : List Char → List (List Char)
  | [] => [[]]
  | x :: xs =>
    match splitOnChar c xs with
    | [] => [[]]
    | g :: gs => if x = c then [] :: g :: gs else (x :: g) :: gs

/-- Numeric value of an ASCII digit character. -/
def digitVal (c : Char) : Nat := c.toNat - 48

/-- Rust `str::parse::<u32>` on a character list: an optional leading plus
sign, then one or more ASCII digits, and the value must fit in 32 bits. -/
def parseU32Chars (cs : List Char) : Option Nat :=
  let cs' := match cs with
    | '+' :: rest => rest
    | _ => cs
  if cs' = [] then none
  else if cs'.all (fun c => c.isDigit) then
    let n := cs'.foldl (fun a c => a * 10 + digitVal c) 0
    if n < 4294967296 then some n else none
  else none

/-- Rust `str::parse::<u32>` on a string. -/
def parseU32 (s : String) : Option Nat := parseU32Chars s.data

/-- Longest run of leading ASCII digits, and the remaining characters. -/
def takeDigits : List Char → List Char × List Char
  | [] => ([], [])
  | c :: cs =>
    if c.isDigit then
      let (d, r) := takeDigits cs
      (c :: d, r)
    else ([], c :: cs)

/-- Value of a digit run read as a natural number. -/
def digitsToNat (ds : List Char) : Nat :=
  ds.foldl (fun a c => a * 10 + digitVal c) 0

/-- Exact rational value of an integer part and a fraction part. -/
def decimalVal (intPart fracPart : List Char) : ℚ :=
  (digitsToNat intPart : ℚ) + (digitsToNat fracPart : ℚ) / ((10 : ℚ) ^ fracPart.length)

/-- Exponent suffix of a float literal: an optional sign and then one or
more digits, consuming the whole remainder. -/
def parseExpPart (cs : List Char) : Option Int :=
  let (sg, cs') := match cs with
    | '+' :: r => ((1 : Int), r)
    | '-' :: r => ((-1 : Int), r)
    | r => ((1 : Int), r)
  let (ds, rest) := takeDigits cs'
  if ds = [] ∨ rest ≠ [] then none else some (sg * (digitsToNat ds : Int))

/-- Rust `str::parse::<f64>` restricted to finite decimal literals, read as
an exact rational: optional sign, then digits with an optional point and
fraction (at least one digit overall), then an optional exponent. The
non-finite literals (inf, NaN) fall outside the rational value model and
are mapped to failure; no claim under verification involves them. -/
def parseF64Chars (cs : List Char) : Option ℚ :=
  let (sg, cs1) := match cs with
    | '+' :: r => ((1 : ℚ), r)
    | '-' :: r => ((-1 : ℚ), r)
    | r => ((1 : ℚ), r)
  let (intDs, cs2) := takeDigits cs1
  let (fracDs, cs3) := match cs2 with
    | '.' :: r => takeDigits r
    | r => (([] : List Char), r)
  if intDs = [] ∧ fracDs = [] then none
  else
    let mant := sg * decimalVal intDs fracDs
    match cs3 with
    | [] => some mant
    | 'e' :: r => (parseExpPart r).map (fun e => mant * (10 : ℚ) ^ e)
    | 'E' :: r => (parseExpPart r).map (fun e => mant * (10 : ℚ) ^ e)
    | _ => none

/-- Rust `str::parse::<f64>` on a string (see `parseF64Chars`). -/
def parseF64 (s : String) : Option ℚ := parseF64Chars s.data

/-- The serde_json dynamic value type. -/
inductive Json where
  | null : Json
  | bool (b : Bool) : Json
  | num (q : ℚ) : Json
  | str (s : String) : Json
  | arr (elems : List Json) : Json
  | obj (fields : List (String × Json)) : Json

/-- serde_json indexing by string key: missing key or a non-object value
gives `null`. -/
def Json.get (j : Json) (key : String) : Json :=
  match j with
  | .obj fields => ((fields.find? (fun f => f.1 == key)).map (fun f => f.2)).getD .null
  | _ => .null

/-- serde_json indexing by array position: out of bounds or a non-array
value gives `null`. -/
def Json.getIdx (j : Json) (i : Nat) : Json :=
  match j with
  | .arr elems => (elems.get? i).getD .null
  | _ => .null

/-- serde_json `as_str`. -/
def Json.as_str : Json → Option String
  | .str s => some s
  | _ => none

/-- serde_json `as_array`. -/
def Json.as_array : Json → Option (List Json)
  | .arr elems => some elems
  | _ => none

/-- Sort key of a backend result item (main.rs lines 178-183): the numeric
u32 parse of the address label, defaulting to 0. -/
def addrKey (item : Json) : Nat :=
  ((((item.get "metric").get "address").as_str).bind parseU32).getD 0

/-- Instance label of a backend result item, defaulting to "unknown"
(main.rs line 188). -/
def itemInstance (item : Json) : String :=
  (((item.get "metric").get "instance").as_str).getD "unknown"

/-- Parsed numeric value of a backend result item (main.rs line 189). -/
def itemValue (item : Json) : Option ℚ :=
  (((item.get "value").getIdx 1).as_str).bind parseF64

/-- Inserts an element into a list sorted by a numeric key, after every
element of strictly smaller key and before every element of greater or
equal key, so that the induced sort is stable. -/
def insertKeyed {α : Type} (k : α → Nat) (x : α) : List α → List α
  | [] => [x]
  | y :: ys => if k y < k x then y :: insertKeyed k x ys else x :: y :: ys

/-- Stable sort by a numeric key, the semantics of Rust
`slice::sort_by_key` (main.rs line 178). -/
def sortByKey {α : Type} (k : α → Nat) : List α → List α
  | [] => []
  | x :: xs => insertKeyed k x (sortByKey k xs)

/-- Grouping loop of `get_data` (main.rs lines 185-197), read off as the
value sequence of one instance: the sorted items whose instance label
matches, each contributing its parsed value; items whose value fails to
parse are skipped. A key is present in the Rust HashMap exactly when this
sequence is nonempty. -/
def groupData (items : List Json) (inst : String) : List ℚ :=
  (sortByKey addrKey items).filterMap (fun it =>
    match itemValue it with
    | some v => if itemInstance it = inst then some v else none
    | none => none)

/-- Possible outcomes of the reqwest interaction inside `get_data`:
the client builder can fail, the send can fail in transport or hit the
5 second timeout, the body can fail to parse as JSON, or a JSON body is
obtained. -/
inductive FetchOutcome where
  | clientBuildError
  | transportError
  | timedOut
  | unparseableBody
  | body (j : Json)

/-- Error mapping of `get_data` up to extraction of the result array
(main.rs lines 149-175): a builder failure is a 500, every transport,
timeout or body-parse failure is a 502, and a JSON body without a
`data.result` array is a 502. -/
def fetchData : FetchOutcome → Except StatusCode (List Json)
  | .clientBuildError => .error .internalServerError
  | .transportError => .error .badGateway
  | .timedOut => .error .badGateway
  | .unparseableBody => .error .badGateway
  | .body j =>
    match ((j.get "data").get "result").as_array with
    | none => .error .badGateway
    | some items => .ok items

/-- Full `get_data` (main.rs lines 145-200): fetch the result array, then
sort and group it into the instance-to-samples mapping. -/
def get_data (o : FetchOutcome) : Except StatusCode (String → List ℚ) :=
  (fetchData o).map groupData

/-- The `HOUR` constant of main.rs (line 14). -/
def HOUR : Int := 3600

/-- HashMap parameter lookup, as `params.get(key)`. -/
def getParam (params : List (String × String)) (key : String) : Option String :=
  (params.find? (fun p => p.1 == key)).map (fun p => p.2)

/-- Rust `as i32` wrapping cast of a value below 2^32. -/
def toI32 (n : Nat) : Int :=
  if n < 2147483648 then (n : Int) else (n : Int) - 4294967296

/-- Date parameter parse (main.rs lines 54-64): split on dash, keep the
components that parse as u32, and require exactly three of them; the year
is cast to i32. -/
def parseDateParam (d : String) : Option (Int × Nat × Nat) :=
  match (splitOnChar '-' d.data).filterMap parseU32Chars with
  | [y, m, da] => some (toI32 y, m, da)
  | _ => none

/-- Time parameter parse (main.rs lines 66-76): split on colon, keep the
components that parse as u32, and require exactly two. -/
def parseTimeParam (t : String) : Option (Nat × Nat) :=
  match (splitOnChar ':' t.data).filterMap parseU32Chars with
  | [h, mi] => some (h, mi)
  | _ => none

/-- chrono leap-year rule for the proleptic Gregorian calendar. -/
def isLeapYear (y : Int) : Bool :=
  (y % 4 == 0 && y % 100 != 0) || y % 400 == 0

/-- Number of days in a month of the proleptic Gregorian calendar. -/
def daysInMonth (y : Int) (m : Nat) : Nat :=
  if m = 2 then (if isLeapYear y then 29 else 28)
  else if m = 4 ∨ m = 6 ∨ m = 9 ∨ m = 11 then 30
  else 31

/-- Days from 1970-01-01 of a proleptic Gregorian civil date (the standard
civil-from-days conversion, matching the chrono day numbering). -/
def daysFromCivil (y : Int) (m d : Nat) : Int :=
  let y' : Int := if m ≤ 2 then y - 1 else y
  let era : Int := Int.tdiv (if 0 ≤ y' then y' else y' - 399) 400
  let yoe : Nat := (y' - era * 400).toNat
  let mp : Nat := (m + 9) % 12
  let doy : Nat := (153 * mp + 2) / 5 + d - 1
  let doe : Nat := yoe * 365 + yoe / 4 - yoe / 100 + doy
  era * 146097 + (doe : Int) - 719468

/-- chrono `NaiveDate::from_ymd_opt` followed by `and_hms_opt(h, mi, 0)`
(main.rs lines 82-84): valid when the year is within the chrono year range,
the month, day, hour and minute are in range; the result is the second
count of the naive timestamp from the naive epoch. -/
def mkNaiveDateTime (y : Int) (m d h mi : Nat) : Option Int :=
  if -262144 ≤ y ∧ y ≤ 262143 ∧ 1 ≤ m ∧ m ≤ 12 ∧ 1 ≤ d ∧ d ≤ daysInMonth y m
      ∧ h ≤ 23 ∧ mi ≤ 59 then
    some (daysFromCivil y m d * 86400 + ((h * 3600 + mi * 60 : Nat) : Int))
  else none

/-- chrono `FixedOffset::east_opt`: defined exactly for offsets strictly
between minus and plus one day, in seconds. -/
def eastOpt (secs : Int) : Option Int :=
  if -86400 < secs ∧ secs < 86400 then some secs else none

/-- chrono `and_local_timezone(..).single()` for a fixed offset: a fixed
offset always resolves a local time uniquely, to the UTC instant obtained
by subtracting the offset (main.rs lines 86-90). -/
def fixedOffsetSingle (naiveSecs off : Int) : Option Int :=
  some (naiveSecs - off)

/-- The decoded request of `handle_power_usage`: target pattern, current
and previous UTC instants in seconds, and the csv flag. -/
structure UsageQuery where
  target : String
  currEpoch : Int
  prevEpoch : Int
  wantCsv : Bool
deriving DecidableEq, Repr

/-- Query-parameter decoding and instant construction of
`handle_power_usage` (main.rs lines 48-92), generalized over the offset
passed to `FixedOffset::east_opt`; the source passes `7 * HOUR`. -/
def decodeQueryWithOffset (offSecs : Int) (params : List (String × String)) :
    Except StatusCode UsageQuery :=
  match getParam params "target" with
  | none => .error .badRequest
  | some target =>
    match (getParam params "date").bind parseDateParam with
    | none => .error .badRequest
    | some ymd =>
      match (getParam params "time").bind parseTimeParam with
      | none => .error .badRequest
      | some hm =>
        let csv := ((getParam params "csv").map (fun v => v == "true")).getD false
        match eastOpt offSecs with
        | none => .error .internalServerError
        | some off =>
          match mkNaiveDateTime ymd.1 ymd.2.1 ymd.2.2 hm.1 hm.2 with
          | none => .error .badRequest
          | some naiveSecs =>
            match fixedOffsetSingle naiveSecs off with
            | none => .error .badRequest
            | some currUtc =>
              Except.ok ⟨target, currUtc, currUtc - 86400, csv⟩

/-- The decoder as the source instantiates it, with the UTC+7 offset. -/
def decodeQuery : List (String × String) → Except StatusCode UsageQuery :=
  decodeQueryWithOffset (7 * HOUR)

/-- One computed usage record (struct `PowerUsage` of main.rs). -/
structure PowerUsage where
  prev_kwh : ℚ
  curr_kwh : ℚ
  daily_kwh : ℚ
  avg_power_watt : ℚ
deriving DecidableEq, Repr

/-- Rust `f64::round`: round to the nearest integer, halves away from
zero. -/
def rustRound (q : ℚ) : Int :=
  if 0 ≤ q then ⌊q + 1 / 2⌋ else -⌊-q + 1 / 2⌋

/-- The record built for one paired sample (main.rs lines 108-115):
the daily delta is the plain difference, and the average power applies the
exact scaling chain of the source. -/
def mkUsage (curr prev : ℚ) : PowerUsage :=
  let daily := curr - prev
  { prev_kwh := prev
    curr_kwh := curr
    daily_kwh := daily
    avg_power_watt := (rustRound (daily / 24 * 100000) : ℚ) / 100 }

/-- Alignment loop of `handle_power_usage` (main.rs lines 97-119), read
off as the record sequence of one instance: instances absent from the
current mapping are never visited, instances absent from the previous
mapping are skipped, and otherwise the two sample sequences are zipped
element-wise. A key is present in the Rust result HashMap exactly when
this sequence is nonempty. -/
def alignUsage (curr prev : String → List ℚ) (key : String) : List PowerUsage :=
  if curr key = [] then []
  else if prev key = [] then []
  else List.zipWith mkUsage (curr key) (prev key)

/-- One line of the delimited-text rendering: the fixed header or a data
row carrying the target key, the 1-based position used as the Address
column, and the four numeric fields. -/
inductive CsvLine where
  | header (text : String) : CsvLine
  | row (target : String) (address : Nat) (prev curr daily avg : ℚ) : CsvLine
deriving DecidableEq, Repr

/-- The fixed header text pushed first by the csv branch (main.rs
line 123). -/
def csvHeader : String :=
  "Target,Address,Prev_kWh,Current_kWh,Daily_KWh,Avg_Power_Watt"

/-- The csv branch of `handle_power_usage` (main.rs lines 121-139): the
header, then for every instance entry the enumerated records whose average
power is nonzero, each row carrying the 1-based enumeration index as its
Address column. -/
def renderCsv (entries : List (String × List PowerUsage)) : List CsvLine :=
  CsvLine.header csvHeader ::
    entries.flatMap (fun e =>
      e.2.enum.filterMap (fun iu =>
        if iu.2.avg_power_watt ≠ 0 then
          some (CsvLine.row e.1 (iu.1 + 1) iu.2.prev_kwh iu.2.curr_kwh
            iu.2.daily_kwh iu.2.avg_power_watt)
        else none))

/-- Restatement of the row selection from the spec wording: for every
position of the instance sequence, a row with the 1-based position as its
Address exactly when the average power of the record there is nonzero. -/
def specRows (key : String) (usages : List PowerUsage) : List CsvLine :=
  (List.range usages.length).filterMap (fun i =>
    (usages.get? i).bind (fun u =>
      if u.avg_power_watt ≠ 0 then
        some (CsvLine.row key (i + 1) u.prev_kwh u.curr_kwh u.daily_kwh u.avg_power_watt)
      else none))

/-- The request pipeline of `handle_power_usage` (main.rs lines 48-119):
decode the parameters, fetch and group the two instants, then align. The
two fetch outcomes stand for the two backend calls. -/
def handle_power_usage (params : List (String × String))
    (currFetch prevFetch : FetchOutcome) :
    Except StatusCode (UsageQuery × (String → List PowerUsage)) := do
  let q ← decodeQuery params
  let currData ← get_data currFetch
  let prevData ← get_data prevFetch
  Except.ok (q, alignUsage currData prevData)

/-! Concrete values used by the worked examples of the spec. -/

/-- Backend result item: instance "a", address "2", value "5". -/
def item1 : Json :=
  .obj [("metric", .obj [("instance", .str "a"), ("address", .str "2")]),
        ("value", .arr [.num 1700000000, .str "5"])]

/-- Backend result item: instance "a", address "1", value "3". -/
def item2 : Json :=
  .obj [("metric", .obj [("instance", .str "a"), ("address", .str "1")]),
        ("value", .arr [.num 1700000000, .str "3"])]

/-- Backend result item: instance "b", non-numeric address "x", value
"7". -/
def item3 : Json :=
  .obj [("metric", .obj [("instance", .str "b"), ("address", .str "x")]),
        ("value", .arr [.num 1700000000, .str "7"])]

/-- Backend result item whose value string is not a number. -/
def badItem : Json :=
  .obj [("metric", .obj [("instance", .str "a"), ("address", .str "3")]),
        ("value", .arr [.num 1700000000, .str "zz"])]

/-- Backend result item with no instance label and value "42". -/
def noInstItem : Json :=
  .obj [("metric", .obj [("address", .str "1")]),
        ("value", .arr [.num 1700000000, .str "42"])]

/-- Backend result item whose address label is a negative number. -/
def itemNeg : Json :=
  .obj [("metric", .obj [("instance", .str "a"), ("address", .str "-5")]),
        ("value", .arr [.num 1700000000, .str "1"])]

/-- Current-day mapping of the alignment example: a has samples [10, 20]
and b has one sample. -/
def exCurr : String → List ℚ :=
  fun key => if key = "a" then [10, 20] else if key = "b" then [7] else []

/-- Previous-day mapping of the alignment example: only a is present, with
samples [4, 6, 9]. -/
def exPrev : String → List ℚ :=
  fun key => if key = "a" then [4, 6, 9] else []

/-! Helper lemmas about the stable sort. -/

theorem mem_insertKeyed {α : Type} (k : α → Nat) (x z : α) (l : List α) :
    z ∈ insertKeyed k x l ↔ z = x ∨ z ∈ l := by
  induction l with
  | nil => simp [insertKeyed]
  | cons y ys ih =>
    by_cases h : k y < k x
    · simp only [insertKeyed, if_pos h, List.mem_cons, ih]
      tauto
    · simp only [insertKeyed, if_neg h, List.mem_cons]

theorem insertKeyed_eq_cons {α : Type} (k : α → Nat) (x : α) (l : List α)
    (h : ∀ y ∈ l, ¬ k y < k x) : insertKeyed k x l = x :: l := by
  cases l with
  | nil => rfl
  | cons y ys => simp [insertKeyed, h y (List.mem_cons_self y ys)]

theorem pairwise_insertKeyed {α : Type} (k : α → Nat) (x : α) (l : List α)
    (h : l.Pairwise (fun a b => k a ≤ k b)) :
    (insertKeyed k x l).Pairwise (fun a b => k a ≤ k b) := by
  induction l with
  | nil => simp [insertKeyed]
  | cons y ys ih =>
    rw [List.pairwise_cons] at h
    by_cases hk : k y < k x
    · rw [insertKeyed, if_pos hk, List.pairwise_cons]
      refine ⟨fun z hz => ?_, ih h.2⟩
      rcases (mem_insertKeyed k x z ys).1 hz with h1 | h1
      · rw [h1]; exact le_of_lt hk
      · exact h.1 z h1
    · rw [insertKeyed, if_neg hk, List.pairwise_cons]
      refine ⟨fun z hz => ?_, List.pairwise_cons.2 h⟩
      rcases List.mem_cons.1 hz with h1 | h1
      · rw [h1]; exact Nat.le_of_not_lt hk
      · exact le_trans (Nat.le_of_not_lt hk) (h.1 z h1)

theorem sortByKey_pairwise {α : Type} (k : α → Nat) (l : List α) :
    (sortByKey k l).Pairwise (fun a b => k a ≤ k b) := by
  induction l with
  | nil => simp [sortByKey]
  | cons x xs ih => exact pairwise_insertKeyed k x _ ih

theorem filter_insertKeyed {α : Type} (k : α → Nat) (p : α → Bool) (x : α) (l : List α)
    (hs : l.Pairwise (fun a b => k a ≤ k b)) :
    (insertKeyed k x l).filter p =
      if p x then insertKeyed k x (l.filter p) else l.filter p := by
  induction l with
  | nil => cases hpx : p x <;> simp [insertKeyed, List.filter, hpx]
  | cons y ys ih =>
    rw [List.pairwise_cons] at hs
    by_cases hk : k y < k x
    · have h1 : insertKeyed k x (y :: ys) = y :: insertKeyed k x ys := by
        simp [insertKeyed, hk]
      rw [h1]
      cases hpy : p y <;> cases hpx : p x <;>
        simp [List.filter_cons, hpy, hpx, ih hs.2, insertKeyed, hk]
    · have h1 : insertKeyed k x (y :: ys) = x :: y :: ys := by
        simp [insertKeyed, hk]
      rw [h1]
      cases hpx : p x
      · simp [List.filter_cons, hpx]
      · have h2 : insertKeyed k x ((y :: ys).filter p) = x :: (y :: ys).filter p := by
          apply insertKeyed_eq_cons
          intro z hz hlt
          rcases List.mem_cons.1 (List.mem_of_mem_filter hz) with h3 | h3
          · rw [h3] at hlt; exact hk hlt
          · exact hk (lt_of_le_of_lt (hs.1 z h3) hlt)
        rw [if_pos rfl, h2]
        simp [List.filter_cons, hpx]

theorem filter_sortByKey {α : Type} (k : α → Nat) (p : α → Bool) (l : List α) :
    (sortByKey k l).filter p = sortByKey k (l.filter p) := by
  induction l with
  | nil => rfl
  | cons x xs ih =>
    have h1 : sortByKey k (x :: xs) = insertKeyed k x (sortByKey k xs) := rfl
    rw [h1, filter_insertKeyed k p x _ (sortByKey_pairwise k xs), ih]
    cases hpx : p x <;> simp [List.filter_cons, hpx, sortByKey]

theorem sortByKey_of_key_const {α : Type} (k : α → Nat) (n : Nat) (l : List α)
    (h : ∀ a ∈ l, k a = n) : sortByKey k l = l := by
  induction l with
  | nil => rfl
  | cons x xs ih =>
    have h1 : sortByKey k (x :: xs) = insertKeyed k x (sortByKey k xs) := rfl
    rw [h1, ih (fun a ha => h a (List.mem_cons_of_mem x ha))]
    apply insertKeyed_eq_cons
    intro y hy
    rw [h y (List.mem_cons_of_mem x hy), h x (List.mem_cons_self x xs)]
    exact lt_irrefl n

theorem sortByKey_filter_key {α : Type} (k : α → Nat) (l : List α) (n : Nat) :
    (sortByKey k l).filter (fun a => k a == n) = l.filter (fun a => k a == n) := by
  rw [filter_sortByKey]
  apply sortByKey_of_key_const k n
  intro a ha
  have := List.of_mem_filter ha
  exact eq_of_beq this

theorem filterMap_filter_of_none {α β : Type} (f : α → Option β) (p : α → Bool)
    (h : ∀ a, p a = false → f a = none) (l : List α) :
    (l.filter p).filterMap f = l.filterMap f := by
  induction l with
  | nil => rfl
  | cons x xs ih =>
    cases hpx : p x
    · simp [List.filter_cons, hpx, List.filterMap_cons, h x hpx, ih]
    · simp [List.filter_cons, hpx, List.filterMap_cons, ih]

theorem filterMap_enumFrom {β γ : Type} (f : Nat × β → Option γ) (n : Nat) (l : List β) :
    (l.enumFrom n).filterMap f =
      (List.range l.length).filterMap
        (fun i => (l.get? i).bind (fun u => f (n + i, u))) := by
  induction l generalizing n with
  | nil => rfl
  | cons x xs ih =>
    have h1 : List.enumFrom n (x :: xs) = (n, x) :: List.enumFrom (n + 1) xs := rfl
    rw [h1, List.filterMap_cons, List.length_cons, List.range_succ_eq_map,
      List.filterMap_cons, ih (n + 1), List.filterMap_map]
    have h2 : (((x :: xs).get? 0).bind fun u => f (n + 0, u)) = f (n, x) := by
      simp
    rw [h2]
    have h3 : ∀ i : Nat,
        ((fun i => ((x :: xs).get? i).bind fun u => f (n + i, u)) ∘ Nat.succ) i =
          (fun i => (xs.get? i).bind fun u => f (n + 1 + i, u)) i := by
      intro i
      simp only [Function.comp, List.get?_cons_succ]
      have : n + Nat.succ i = n + 1 + i := by omega
      rw [this]
    rw [List.filterMap_congr (fun i _ => h3 i)]

/-- Every error that `get_data` can produce is either the 502 of a failed
or malformed backend interaction or the 500 of a failed client build;
never the 400 reserved for parameter validation. -/
theorem get_data_error_status (o : FetchOutcome) (e : StatusCode)
    (h : get_data o = .error e) :
    e = .badGateway ∨ e = .internalServerError := by
  cases o with
  | clientBuildError =>
    simp [get_data, fetchData, Except.map] at h
    exact Or.inr h.symm
  | transportError =>
    simp [get_data, fetchData, Except.map] at h
    exact Or.inl h.symm
  | timedOut =>
    simp [get_data, fetchData, Except.map] at h
    exact Or.inl h.symm
  | unparseableBody =>
    simp [get_data, fetchData, Except.map] at h
    exact Or.inl h.symm
  | body j =>
    cases ha : ((j.get "data").get "result").as_array with
    | none =>
      simp [get_data, fetchData, Except.map, ha] at h
      exact Or.inl h.symm
    | some items =>
      simp [get_data, fetchData, Except.map, ha] at h

/-! Claim theorems. -/

/-- C1: the alignment step outputs an entry only for instance keys present
in both mappings; an instance present only in the current mapping yields no
output, and for an instance present in both, the record sequence is the
strict element-wise zip of the two sample sequences truncated to the
shorter length. On the worked example, current a has [10, 20] and previous
a has [4, 6, 9], giving exactly the two records pairing (10, 4) and
(20, 6), while b, present only in the current mapping, yields nothing. -/
theorem c1_alignment_zip :
    (∀ (curr prev : String → List ℚ) (key : String),
      prev key = [] → alignUsage curr prev key = []) ∧
    (∀ (curr prev : String → List ℚ) (key : String),
      alignUsage curr prev key = List.zipWith mkUsage (curr key) (prev key)) ∧
    (∀ (curr prev : String → List ℚ) (key : String),
      (alignUsage curr prev key).length =
        min (curr key).length (prev key).length) ∧
    alignUsage exCurr exPrev "a" = [mkUsage 10 4, mkUsage 20 6] ∧
    (alignUsage exCurr exPrev "a").length = 2 ∧
    (mkUsage 10 4).curr_kwh = 10 ∧ (mkUsage 10 4).prev_kwh = 4 ∧
    (mkUsage 20 6).curr_kwh = 20 ∧ (mkUsage 20 6).prev_kwh = 6 ∧
    exCurr "b" = [7] ∧ alignUsage exCurr exPrev "b" = [] := by
  have hzip : ∀ (curr prev : String → List ℚ) (key : String),
      alignUsage curr prev key = List.zipWith mkUsage (curr key) (prev key) := by
    intro curr prev key
    by_cases h1 : curr key = [] <;> by_cases h2 : prev key = [] <;>
      simp [alignUsage, h1, h2]
  refine ⟨?_, hzip, ?_, ?_, ?_, rfl, rfl, rfl, rfl, ?_, ?_⟩
  · intro curr prev key h
    simp [alignUsage, h]
  · intro curr prev key
    rw [hzip, List.length_zipWith]
  · show alignUsage exCurr exPrev "a" = _
    rw [hzip]
    rfl
  · rw [hzip, List.length_zipWith]
    rfl
  · rfl
  · rw [hzip]
    rfl

/-- C1 witness: instance b is present only in the current mapping of the
example, and the alignment outputs nothing for it. -/
theorem c1_alignment_zip_witness :
    exPrev "b" = [] ∧ alignUsage exCurr exPrev "b" = [] :=
  ⟨rfl, c1_alignment_zip.1 exCurr exPrev "b" rfl⟩

/-- C2: each paired sample gives dailyDelta = curr − prev, unclamped, and
averagePowerWatts follows the exact scaling chain
round(dailyDelta / 24 × 100000) / 100; for curr = 10, prev = 4 the record
is (4, 10, 6, 250). -/
theorem c2_delta_and_average :
    (∀ curr prev : ℚ, (mkUsage curr prev).daily_kwh = curr - prev) ∧
    (∀ curr prev : ℚ, (mkUsage curr prev).avg_power_watt =
      (rustRound ((curr - prev) / 24 * 100000) : ℚ) / 100) ∧
    mkUsage 10 4 = ⟨4, 10, 6, 250⟩ ∧
    (mkUsage 4 10).daily_kwh = -6 ∧
    (mkUsage 4 10).avg_power_watt = -250 := by
  refine ⟨fun _ _ => rfl, fun _ _ => rfl, ?_, ?_, ?_⟩
  · simp [mkUsage, rustRound]
    norm_num
  · simp [mkUsage]
    norm_num
  · simp [mkUsage, rustRound]
    norm_num

/-- C3 counterexample: the decoder does not reject every date with a
non-numeric component or more than 3 components. The date "1-2-3-x" has
four dash-delimited components, one non-numeric, yet the date parse keeps
exactly the three numeric ones and the whole request decodes successfully;
likewise the time "4:5:x". -/
theorem c3_counterexample :
    parseDateParam "1-2-3-x" = some (1, 2, 3) ∧
    parseTimeParam "4:5:x" = some (4, 5) ∧
    decodeQuery [("target", "a"), ("date", "1-2-3-x"), ("time", "4:5")] =
      Except.ok ⟨"a", -62132756100, -62132842500, false⟩ :=
  ⟨by decide, by decide, by decide⟩

/-- C3 amended: the decoder rejects a missing target; the date parameter
is split on dash only (a dot is not a delimiter), components failing the
u32 parse are discarded, and the parse fails exactly when the surviving
numeric components do not number exactly 3; the time parameter is split on
colon with the same rule and count 2; a date or time parameter whose parse
fails yields the bad-request error. -/
theorem c3_amended_decoder :
    (∀ params, getParam params "target" = none →
      decodeQuery params = .error .badRequest) ∧
    (∀ d : String, parseDateParam d = none ↔
      ((splitOnChar '-' d.data).filterMap parseU32Chars).length ≠ 3) ∧
    (∀ t : String, parseTimeParam t = none ↔
      ((splitOnChar ':' t.data).filterMap parseU32Chars).length ≠ 2) ∧
    (∀ params d, getParam params "date" = some d → parseDateParam d = none →
      decodeQuery params = .error .badRequest) ∧
    (∀ params t, getParam params "time" = some t → parseTimeParam t = none →
      decodeQuery params = .error .badRequest) ∧
    parseDateParam "2024.5.1" = none ∧
    parseDateParam "2024-5-1" = some (2024, 5, 1) := by
  refine ⟨?_, ?_, ?_, ?_, ?_, by decide, by decide⟩
  · intro params h
    simp [decodeQuery, decodeQueryWithOffset, h]
  · intro d
    rcases h : (splitOnChar '-' d.data).filterMap parseU32Chars with
      _ | ⟨a, _ | ⟨b, _ | ⟨c, _ | rest⟩⟩⟩ <;>
      simp [parseDateParam, h]
  · intro t
    rcases h : (splitOnChar ':' t.data).filterMap parseU32Chars with
      _ | ⟨a, _ | ⟨b, _ | ⟨c, rest⟩⟩⟩ <;>
      simp [parseTimeParam, h]
  · intro params d hd hp
    cases ht : getParam params "target" <;>
      simp [decodeQuery, decodeQueryWithOffset, ht, hd, hp]
  · intro params t ht hp
    cases htg : getParam params "target" <;>
      cases hd : (getParam params "date").bind parseDateParam <;>
      simp [decodeQuery, decodeQueryWithOffset, htg, hd, ht, hp]

/-- C3 witness: concrete malformed requests on which the amended decoder
behaviour is exercised: a request with no target, one whose date parameter
has no numeric component, and one whose time parameter has a single
component. -/
theorem c3_amended_decoder_witness :
    getParam [("date", "1-1-1")] "target" = none ∧
    decodeQuery [("date", "1-1-1")] = .error .badRequest ∧
    getParam [("target", "a"), ("date", "x"), ("time", "1:2")] "date" =
      some "x" ∧
    parseDateParam "x" = none ∧
    decodeQuery [("target", "a"), ("date", "x"), ("time", "1:2")] =
      .error .badRequest ∧
    getParam [("target", "a"), ("date", "1-1-1"), ("time", "9")] "time" =
      some "9" ∧
    parseTimeParam "9" = none ∧
    decodeQuery [("target", "a"), ("date", "1-1-1"), ("time", "9")] =
      .error .badRequest :=
  ⟨by decide, c3_amended_decoder.1 _ (by decide), by decide, by decide,
   c3_amended_decoder.2.2.2.1 _ "x" (by decide) (by decide), by decide,
   by decide,
   c3_amended_decoder.2.2.2.2.1 _ "9" (by decide) (by decide)⟩

/-- C4: the metrics client stably sorts result items ascending by the
numeric parse of the address label (failed parses as 0, ties in original
order) and then groups by instance preserving that order: the sorted list
is pairwise ordered by key, any key class keeps its original relative
order, grouping reads values off the sorted list, and the worked example
[a(2, "5"), a(1, "3"), b(x, "7")] sorts to [b, a(1), a(2)] and groups to
a ↦ [3, 5], b ↦ [7]. -/
theorem c4_sort_then_group :
    (∀ items : List Json,
      (sortByKey addrKey items).Pairwise (fun a b => addrKey a ≤ addrKey b)) ∧
    (∀ (items : List Json) (n : Nat),
      (sortByKey addrKey items).filter (fun a => addrKey a == n) =
        items.filter (fun a => addrKey a == n)) ∧
    (∀ (items : List Json) (inst : String),
      groupData items inst = (sortByKey addrKey items).filterMap (fun it =>
        match itemValue it with
        | some v => if itemInstance it = inst then some v else none
        | none => none)) ∧
    sortByKey addrKey [item1, item2, item3] = [item3, item2, item1] ∧
    groupData [item1, item2, item3] "a" = [3, 5] ∧
    groupData [item1, item2, item3] "b" = [7] ∧
    groupData [item1, item2, item3] "c" = [] := by
  refine ⟨fun items => sortByKey_pairwise addrKey items,
    fun items n => sortByKey_filter_key addrKey items n,
    fun _ _ => rfl, rfl, ?_, ?_, ?_⟩
  · show groupData [item1, item2, item3] "a" = [3, 5]
    simp [groupData, sortByKey, insertKeyed, addrKey, itemValue, itemInstance,
      item1, item2, item3, Json.get, Json.getIdx, Json.as_str, parseU32,
      parseU32Chars, parseF64, parseF64Chars, takeDigits, decimalVal,
      digitsToNat, digitVal]
  · simp [groupData, sortByKey, insertKeyed, addrKey, itemValue, itemInstance,
      item1, item2, item3, Json.get, Json.getIdx, Json.as_str, parseU32,
      parseU32Chars, parseF64, parseF64Chars, takeDigits, decimalVal,
      digitsToNat, digitVal]
  · simp [groupData, sortByKey, insertKeyed, addrKey, itemValue, itemInstance,
      item1, item2, item3, Json.get, Json.getIdx, Json.as_str, parseU32,
      parseU32Chars, parseF64, parseF64Chars, takeDigits, decimalVal,
      digitsToNat, digitVal]

/-- C5: for every offset and every successfully decoded request, the
previous instant is exactly 24 hours (86400 seconds) before the current
instant in absolute time. -/
theorem c5_previous_is_24h_earlier :
    ∀ (offSecs : Int) (params : List (String × String)) (q : UsageQuery),
      decodeQueryWithOffset offSecs params = .ok q →
      q.prevEpoch = q.currEpoch - 86400 := by
  intro offSecs params q h
  unfold decodeQueryWithOffset at h
  repeat' split at h
  all_goals first
    | exact Except.noConfusion h
    | (injection h with h'; subst h'; rfl)

/-- C5 witness: the request for target x at 2024-05-01 10:30 decodes with
the UTC+7 offset to the instant 1714534200, and its previous instant
1714447800 is exactly 86400 seconds earlier. -/
theorem c5_previous_is_24h_earlier_witness :
    decodeQuery [("target", "x"), ("date", "2024-05-01"), ("time", "10:30")] =
      Except.ok ⟨"x", 1714534200, 1714447800, false⟩ ∧
    (UsageQuery.mk "x" 1714534200 1714447800 false).prevEpoch =
      (UsageQuery.mk "x" 1714534200 1714447800 false).currEpoch - 86400 :=
  ⟨by decide,
   c5_previous_is_24h_earlier (7 * HOUR)
     [("target", "x"), ("date", "2024-05-01"), ("time", "10:30")]
     ⟨"x", 1714534200, 1714447800, false⟩ (by decide)⟩

/-- C6: the delimited-text rendering always starts with the fixed header
line, even when every row is filtered; it emits one row per record except
exactly those whose average power equals 0, and the Address column of a
row is the 1-based position of its record within the instance sequence.
On the example with records averaging 0 and 250, only the second record
renders, with Address 2. -/
theorem c6_csv_rendering :
    (∀ entries, (renderCsv entries).head? = some (CsvLine.header csvHeader)) ∧
    (∀ key usages,
      renderCsv [(key, usages)] =
        CsvLine.header csvHeader :: specRows key usages) ∧
    renderCsv [("t", [mkUsage 5 5])] = [CsvLine.header csvHeader] ∧
    renderCsv [("t", [mkUsage 5 5, mkUsage 10 4])] =
      [CsvLine.header csvHeader, CsvLine.row "t" 2 4 10 6 250] := by
  refine ⟨fun entries => rfl, ?_, ?_, ?_⟩
  · intro key usages
    rw [renderCsv]
    congr 1
    rw [List.flatMap_cons, List.flatMap_nil, List.append_nil]
    have he : usages.enum = usages.enumFrom 0 := rfl
    rw [he, filterMap_enumFrom, specRows]
    apply List.filterMap_congr
    intro i _
    simp [Nat.zero_add]
  · have h0 : mkUsage 5 5 = ⟨5, 5, 0, 0⟩ := by
      simp [mkUsage, rustRound]
      norm_num
    have he : [(⟨5, 5, 0, 0⟩ : PowerUsage)].enum =
        [(0, (⟨5, 5, 0, 0⟩ : PowerUsage))] := rfl
    simp [renderCsv, h0, he]
  · have h0 : mkUsage 5 5 = ⟨5, 5, 0, 0⟩ := by
      simp [mkUsage, rustRound]
      norm_num
    have h2 : mkUsage 10 4 = ⟨4, 10, 6, 250⟩ := by
      simp [mkUsage, rustRound]
      norm_num
    have he : [(⟨5, 5, 0, 0⟩ : PowerUsage), ⟨4, 10, 6, 250⟩].enum =
        [(0, (⟨5, 5, 0, 0⟩ : PowerUsage)), (1, ⟨4, 10, 6, 250⟩)] := rfl
    simp [renderCsv, h0, h2, he]
    try norm_num

/-- C7: every backend-fetch failure — transport error, timeout,
non-parseable body, or a body without the expected result array — maps to
the 502 bad-gateway error, never to 400; in the full pipeline a
bad-request error can only originate in the query decoder. -/
theorem c7_backend_errors :
    fetchData .transportError = .error .badGateway ∧
    fetchData .timedOut = .error .badGateway ∧
    fetchData .unparseableBody = .error .badGateway ∧
    (∀ j : Json, ((j.get "data").get "result").as_array = none →
      fetchData (.body j) = .error .badGateway) ∧
    (∀ (o : FetchOutcome) (e : StatusCode), get_data o = .error e →
      e = .badGateway ∨ e = .internalServerError) ∧
    (∀ (params : List (String × String)) (c p : FetchOutcome),
      handle_power_usage params c p = .error .badRequest →
      decodeQuery params = .error .badRequest) := by
  refine ⟨rfl, rfl, rfl, ?_, get_data_error_status, ?_⟩
  · intro j h
    simp [fetchData, h]
  · intro params c p h
    cases hd : decodeQuery params with
    | error e =>
      have h2 : handle_power_usage params c p = .error e := by
        unfold handle_power_usage
        rw [hd]
        rfl
      rw [h2] at h
      injection h with h1
      rw [h1]
    | ok q =>
      cases hc : get_data c with
      | error e1 =>
        have h2 : handle_power_usage params c p = .error e1 := by
          unfold handle_power_usage
          rw [hd, hc]
          rfl
        rw [h2] at h
        injection h with h1
        rcases get_data_error_status c e1 hc with h3 | h3 <;>
          (rw [h1] at h3; exact StatusCode.noConfusion h3)
      | ok currData =>
        cases hp : get_data p with
        | error e2 =>
          have h2 : handle_power_usage params c p = .error e2 := by
            unfold handle_power_usage
            rw [hd, hc, hp]
            rfl
          rw [h2] at h
          injection h with h1
          rcases get_data_error_status p e2 hp with h3 | h3 <;>
            (rw [h1] at h3; exact StatusCode.noConfusion h3)
        | ok prevData =>
          have h2 : handle_power_usage params c p =
              .ok (q, alignUsage currData prevData) := by
            unfold handle_power_usage
            rw [hd, hc, hp]
            rfl
          rw [h2] at h
          exact Except.noConfusion h

/-- C7 witness: a JSON body with no result array maps to 502, and the
request with no parameters at all fails in the decoder with 400. -/
theorem c7_backend_errors_witness :
    ((Json.null.get "data").get "result").as_array = none ∧
    fetchData (FetchOutcome.body Json.null) = .error .badGateway ∧
    decodeQuery [] = .error .badRequest :=
  ⟨rfl, c7_backend_errors.2.2.2.1 Json.null rfl,
   c7_backend_errors.2.2.2.2.2 [] FetchOutcome.timedOut FetchOutcome.timedOut
     rfl⟩

/-- C8: a result item whose value string does not parse as a float
contributes nothing to any instance sequence and raises no error (grouping
over a list equals grouping over its parseable sublist), an item without
an instance label is grouped under "unknown", and parsed values are read
off in sorted order. On the examples, the item with value "zz" is dropped
while its neighbours survive, and the instance-less item lands under
"unknown". -/
theorem c8_value_skip_and_unknown :
    (∀ (items : List Json) (inst : String),
      groupData items inst =
        groupData (items.filter (fun it => (itemValue it).isSome)) inst) ∧
    (∀ item : Json, ((item.get "metric").get "instance").as_str = none →
      itemInstance item = "unknown") ∧
    (∀ (items : List Json) (inst : String),
      groupData items inst = (sortByKey addrKey items).filterMap (fun it =>
        (itemValue it).bind
          (fun v => if itemInstance it = inst then some v else none))) ∧
    groupData [item1, badItem, item2] "a" = [3, 5] ∧
    groupData [noInstItem] "unknown" = [42] := by
  refine ⟨?_, ?_, ?_, ?_, ?_⟩
  · intro items inst
    show (sortByKey addrKey items).filterMap _ = _
    rw [groupData, ← filter_sortByKey]
    refine (filterMap_filter_of_none _ _ ?_ _).symm
    intro it h
    cases hv : itemValue it with
    | none => simp [hv]
    | some v => rw [hv] at h; simp at h
  · intro item h
    rw [itemInstance, h]
    rfl
  · intro items inst
    rw [groupData]
    apply List.filterMap_congr
    intro it _
    cases hv : itemValue it <;> simp [hv]
  · simp [groupData, sortByKey, insertKeyed, addrKey, itemValue, itemInstance,
      item1, item2, badItem, Json.get, Json.getIdx, Json.as_str, parseU32,
      parseU32Chars, parseF64, parseF64Chars, takeDigits, decimalVal,
      digitsToNat, digitVal]
  · simp [groupData, sortByKey, insertKeyed, addrKey, itemValue, itemInstance,
      noInstItem, Json.get, Json.getIdx, Json.as_str, parseU32,
      parseU32Chars, parseF64, parseF64Chars, takeDigits, decimalVal,
      digitsToNat, digitVal]

/-- C8 witness: the instance-less example item has no instance label and
is grouped under "unknown". -/
theorem c8_value_skip_and_unknown_witness :
    ((noInstItem.get "metric").get "instance").as_str = none ∧
    itemInstance noInstItem = "unknown" :=
  ⟨rfl, c8_value_skip_and_unknown.2.1 noInstItem rfl⟩

/-- C9: constructing the fixed UTC+7 offset of 7 × 3600 seconds east
always succeeds, so the internal-error branch guarding it is unreachable:
every error the decoder can return is the bad-request status. -/
theorem c9_offset_never_internal :
    eastOpt (7 * HOUR) = some 25200 ∧
    (∀ (params : List (String × String)) (e : StatusCode),
      decodeQuery params = .error e → e = .badRequest) := by
  refine ⟨by decide, ?_⟩
  intro params e h
  unfold decodeQuery decodeQueryWithOffset at h
  have hE : eastOpt (7 * HOUR) = some 25200 := by decide
  rw [hE] at h
  repeat' split at h
  all_goals first
    | (injection h with h'; exact h'.symm)
    | exact Except.noConfusion h
    | simp_all

/-- C9 witness: the parameterless request errors, and its error status
is the bad-request status. -/
theorem c9_offset_never_internal_witness :
    decodeQuery [] = .error .badRequest ∧
    StatusCode.badRequest = StatusCode.badRequest :=
  ⟨rfl, c9_offset_never_internal.2 [] .badRequest rfl⟩

/-- C10: the sort key parses the address label as an unsigned 32-bit
integer, so a negative address such as "-5", or one above 4294967295,
fails the parse and yields key 0, exactly like a non-numeric or missing
address; such items sort to the front. -/
theorem c10_address_u32_semantics :
    (∀ (item : Json) (s : String),
      ((item.get "metric").get "address").as_str = some s →
      parseU32 s = none → addrKey item = 0) ∧
    (∀ item : Json, ((item.get "metric").get "address").as_str = none →
      addrKey item = 0) ∧
    parseU32 "-5" = none ∧
    parseU32 "4294967296" = none ∧
    parseU32 "4294967295" = some 4294967295 ∧
    addrKey itemNeg = 0 ∧
    addrKey item3 = 0 ∧
    sortByKey addrKey [item1, itemNeg] = [itemNeg, item1] := by
  refine ⟨?_, ?_, by decide, by decide, by decide, by decide, by decide, rfl⟩
  · intro item s h hp
    rw [addrKey, h]
    simp [Option.bind, hp]
  · intro item h
    rw [addrKey, h]
    rfl

/-- C10 witness: the example item with address "-5" has a failing u32
parse and sort key 0. -/
theorem c10_address_u32_semantics_witness :
    ((itemNeg.get "metric").get "address").as_str = some "-5" ∧
    parseU32 "-5" = none ∧
    addrKey itemNeg = 0 :=
  ⟨rfl, by decide, c10_address_u32_semantics.1 itemNeg "-5" rfl (by decide)⟩

end PowerGateway
